import Mathlib

/-!
Verification of `include/class_loader/meta_object.h` (class_loader plugin
factory registry).

The header defines three layers:
* `AbstractMetaObjectBase` — the "Factory Base": an associated library path
  (initialized to `"Unknown"`) and a vector of owning `ClassLoader*` handles;
* `AbstractMetaObject<B>` — the "Typed Factory": adds an immutable `name_`
  set at construction and the abstract `create()` contract;
* `MetaObject<C,B>` — the "Concrete Factory": `create()` is `return new C;`.

`ClassLoader*` handles are opaque identities used only as set keys; we model
them as natural numbers.  The C++ heap touched by `create()` is modelled as
an allocation counter plus the list of live addresses; `new` never returns
the null address `0`.

The bodies of `addOwningClassLoader`, `removeOwningClassLoader`, `isOwnedBy`
and `isOwnedByAnybody` are declared in the header but defined in a
translation unit not present here, so those four operations are modelled
from the specification text; every other definition is a direct translation
of the header.
-/

namespace ClassLoader

/-- Opaque identity of a `class_loader::ClassLoader*` handle (used only as a
set key, never dereferenced). -/
abbrev ClassLoaderPtr := Nat

/-- State of `AbstractMetaObjectBase` (meta_object.h lines 50-108): the
vector `associated_class_loaders_` of owner handles and the string
`associated_library_path_`. -/
structure AbstractMetaObjectBase where
  associated_class_loaders_ : List ClassLoaderPtr
  associated_library_path_ : String
  deriving Repr, DecidableEq

namespace AbstractMetaObjectBase

/-- The constructor `AbstractMetaObjectBase()` (lines 59-62): the owner
vector is default-constructed (empty) and the library path is initialized
to `"Unknown"`. -/
def init : AbstractMetaObjectBase :=
  { associated_class_loaders_ := [], associated_library_path_ := "Unknown" }

/-- `getAssociatedLibraryPath()` (line 75): returns
`associated_library_path_`. -/
def getAssociatedLibraryPath (m : AbstractMetaObjectBase) : String :=
  m.associated_library_path_

/-- `setAssociatedLibraryPath(library_path)` (line 80): overwrites
`associated_library_path_` unconditionally. -/
def setAssociatedLibraryPath (m : AbstractMetaObjectBase)
    (library_path : String) : AbstractMetaObjectBase :=
  { m with associated_library_path_ := library_path }

/-- Modelled from the spec: the body of `addOwningClassLoader` is not in the
header (only its declaration, line 86).  Spec §4.1: "idempotently adds
`owner` to `owners` if not already present". -/
def addOwningClassLoader (m : AbstractMetaObjectBase)
    (loader : ClassLoaderPtr) : AbstractMetaObjectBase :=
  if loader ∈ m.associated_class_loaders_ then m
  else { m with
          associated_class_loaders_ := m.associated_class_loaders_ ++ [loader] }

/-- Modelled from the spec: the body of `removeOwningClassLoader` is not in
the header (only its declaration, line 92).  Spec §4.1: "removes `owner`
from `owners` if present; no-op (not an error) if absent". -/
def removeOwningClassLoader (m : AbstractMetaObjectBase)
    (loader : ClassLoaderPtr) : AbstractMetaObjectBase :=
  { m with
     associated_class_loaders_ := m.associated_class_loaders_.erase loader }

/-- Modelled from the spec: the body of `isOwnedBy` is not in the header
(only its declaration, line 98).  Spec §4.1: "true iff `owner` is currently
present in `owners`". -/
def isOwnedBy (m : AbstractMetaObjectBase) (loader : ClassLoaderPtr) : Bool :=
  m.associated_class_loaders_.contains loader

/-- Modelled from the spec: the body of `isOwnedByAnybody` is not in the
header (only its declaration, line 103).  Spec §4.1: "true iff `owners` is
non-empty". -/
def isOwnedByAnybody (m : AbstractMetaObjectBase) : Bool :=
  !m.associated_class_loaders_.isEmpty

end AbstractMetaObjectBase

/-- The C++ free store as seen by `new C` / `delete`: a bump allocator
(addresses are handed out in increasing order, starting strictly above the
null address `0`) together with the list of currently live addresses. -/
structure Heap where
  nextAddr : Nat
  live : List Nat
  deriving Repr, DecidableEq

namespace Heap

/-- An empty heap; address `0` is reserved for the null pointer, so the
first allocation yields address `1`. -/
def empty : Heap := { nextAddr := 1, live := [] }

/-- `new C` (meta_object.h line 187): allocates a fresh object and returns
its address; on failure C++ `new` throws rather than returning null, so on
every return path the address is a fresh non-null one. -/
def newObj (h : Heap) : Nat × Heap :=
  (h.nextAddr, { nextAddr := h.nextAddr + 1, live := h.nextAddr :: h.live })

/-- `delete p`: releases the object at address `a` if it is live. -/
def deleteObj (h : Heap) (a : Nat) : Heap :=
  { h with live := h.live.erase a }

/-- Whether address `a` currently holds a live object. -/
def isLive (h : Heap) (a : Nat) : Bool := h.live.contains a

/-- Heap sanity: every live address was previously allocated (is below the
bump pointer) — true of every heap reachable from `Heap.empty`. -/
def wf (h : Heap) : Prop := ∀ a ∈ h.live, a < h.nextAddr

instance (h : Heap) : Decidable h.wf := by
  unfold wf; infer_instance

end Heap

/-- State of the concrete factory `MetaObject<C,B>` (meta_object.h lines
162-189): the inherited `AbstractMetaObjectBase` state plus the name
`name_` stored by `AbstractMetaObject<B>` at construction (line 123). -/
structure MetaObject where
  base : AbstractMetaObjectBase
  name_ : String
  deriving Repr, DecidableEq

namespace MetaObject

/-- The constructor `MetaObject(const char* name)` (line 169): forwards the
name to `AbstractMetaObject<B>(name)` which stores it in `name_`; the
`AbstractMetaObjectBase` sub-object is default-constructed. -/
def mkNamed (name : String) : MetaObject :=
  { base := AbstractMetaObjectBase.init, name_ := name }

/-- `name()` (line 138): returns `name_`. -/
def name (m : MetaObject) : String := m.name_

/-- `create()` (lines 185-188): `return new C;`.  The method is `const`, so
the factory state is returned unchanged; only the heap is touched. -/
def create (m : MetaObject) (h : Heap) : Nat × MetaObject × Heap :=
  let r := h.newObj
  (r.1, m, r.2)

/-- `addOwningClassLoader` as inherited by `MetaObject` from
`AbstractMetaObjectBase`: acts on the base sub-object. -/
def addOwningClassLoader (m : MetaObject) (o : ClassLoaderPtr) : MetaObject :=
  { m with base := m.base.addOwningClassLoader o }

/-- `removeOwningClassLoader` as inherited by `MetaObject` from
`AbstractMetaObjectBase`: acts on the base sub-object. -/
def removeOwningClassLoader (m : MetaObject) (o : ClassLoaderPtr) :
    MetaObject :=
  { m with base := m.base.removeOwningClassLoader o }

/-- `setAssociatedLibraryPath` as inherited by `MetaObject` from
`AbstractMetaObjectBase`: acts on the base sub-object. -/
def setAssociatedLibraryPath (m : MetaObject) (p : String) : MetaObject :=
  { m with base := m.base.setAssociatedLibraryPath p }

end MetaObject

/-- One externally invocable mutating operation on a concrete factory. -/
inductive FactoryOp where
  | addOwner (o : ClassLoaderPtr)
  | removeOwner (o : ClassLoaderPtr)
  | setLibraryPath (p : String)
  | createInstance
  deriving Repr, DecidableEq

/-- Apply one operation to a factory/heap pair (the returned pointer of
`create()`, if any, is dropped: only the state evolution matters here). -/
def FactoryOp.apply (s : MetaObject × Heap) : FactoryOp → MetaObject × Heap
  | .addOwner o => (s.1.addOwningClassLoader o, s.2)
  | .removeOwner o => (s.1.removeOwningClassLoader o, s.2)
  | .setLibraryPath p => (s.1.setAssociatedLibraryPath p, s.2)
  | .createInstance =>
      let r := s.1.create s.2
      (r.2.1, r.2.2)

/-- Run a sequence of operations from a factory/heap pair. -/
def runOps (s : MetaObject × Heap) (ops : List FactoryOp) : MetaObject × Heap :=
  ops.foldl FactoryOp.apply s

/-! ### Helper lemmas -/

namespace AbstractMetaObjectBase

theorem isOwnedBy_iff (m : AbstractMetaObjectBase) (o : ClassLoaderPtr) :
    m.isOwnedBy o = true ↔ o ∈ m.associated_class_loaders_ := by
  simp [isOwnedBy]

theorem isOwnedBy_eq_false_iff (m : AbstractMetaObjectBase)
    (o : ClassLoaderPtr) :
    m.isOwnedBy o = false ↔ o ∉ m.associated_class_loaders_ := by
  simp [isOwnedBy]

theorem mem_add_self (m : AbstractMetaObjectBase) (o : ClassLoaderPtr) :
    o ∈ (m.addOwningClassLoader o).associated_class_loaders_ := by
  unfold addOwningClassLoader
  split
  · assumption
  · simp

theorem add_of_mem {m : AbstractMetaObjectBase} {o : ClassLoaderPtr}
    (h : o ∈ m.associated_class_loaders_) : m.addOwningClassLoader o = m := by
  unfold addOwningClassLoader
  simp [h]

theorem iterate_add_fixed (m : AbstractMetaObjectBase) (o : ClassLoaderPtr)
    (n : Nat) :
    (fun s => addOwningClassLoader s o)^[n] (m.addOwningClassLoader o)
      = m.addOwningClassLoader o := by
  induction n with
  | zero => rfl
  | succ k ih =>
      rw [Function.iterate_succ_apply]
      simp only [add_of_mem (mem_add_self m o)]
      exact ih

theorem count_add_self {m : AbstractMetaObjectBase} {o : ClassLoaderPtr}
    (hinv : m.associated_class_loaders_.count o ≤ 1) :
    (m.addOwningClassLoader o).associated_class_loaders_.count o = 1 := by
  by_cases hm : o ∈ m.associated_class_loaders_
  · rw [add_of_mem hm]
    have h1 : 0 < m.associated_class_loaders_.count o :=
      List.count_pos_iff.mpr hm
    omega
  · unfold addOwningClassLoader
    rw [if_neg hm]
    simp [List.count_append, List.count_eq_zero.mpr hm]

end AbstractMetaObjectBase

theorem foldl_set_getLast (ps : List String) :
    ∀ (m : AbstractMetaObjectBase) (h : ps ≠ []),
      (ps.foldl AbstractMetaObjectBase.setAssociatedLibraryPath
          m).getAssociatedLibraryPath = ps.getLast h := by
  induction ps with
  | nil => intro m h; exact absurd rfl h
  | cons p t ih =>
      intro m h
      cases t with
      | nil =>
          simp [AbstractMetaObjectBase.getAssociatedLibraryPath,
            AbstractMetaObjectBase.setAssociatedLibraryPath]
      | cons q r =>
          rw [List.foldl_cons, List.getLast_cons (by simp)]
          exact ih _ (by simp)

theorem applyOp_name (s : MetaObject × Heap) (op : FactoryOp) :
    (FactoryOp.apply s op).1.name = s.1.name := by
  cases op <;> rfl

theorem runOps_name (ops : List FactoryOp) :
    ∀ s : MetaObject × Heap, (runOps s ops).1.name = s.1.name := by
  induction ops with
  | nil => intro s; rfl
  | cons op t ih =>
      intro s
      exact (ih (FactoryOp.apply s op)).trans (applyOp_name s op)

/-! ### Claim theorems -/

/-- Claim C1: for every factory state satisfying the no-duplicate-owner
invariant and every owner `o`, after one `addOwningClassLoader o` followed
by any number `n` of further `addOwningClassLoader o` calls, `isOwnedBy o`
is `true`, and a single subsequent `removeOwningClassLoader o` makes
`isOwnedBy o` `false`. -/
theorem add_idempotent_single_remove (m : AbstractMetaObjectBase)
    (o : ClassLoaderPtr) (hinv : m.associated_class_loaders_.count o ≤ 1)
    (n : Nat) :
    ((fun s => AbstractMetaObjectBase.addOwningClassLoader s o)^[n]
        (m.addOwningClassLoader o)).isOwnedBy o = true ∧
    (((fun s => AbstractMetaObjectBase.addOwningClassLoader s o)^[n]
        (m.addOwningClassLoader o)).removeOwningClassLoader o).isOwnedBy o
      = false := by
  rw [AbstractMetaObjectBase.iterate_add_fixed]
  constructor
  · exact (AbstractMetaObjectBase.isOwnedBy_iff _ _).mpr
      (AbstractMetaObjectBase.mem_add_self m o)
  · have hc := AbstractMetaObjectBase.count_add_self hinv
    have hz : (((m.addOwningClassLoader o).removeOwningClassLoader
        o).associated_class_loaders_).count o = 0 := by
      simp [AbstractMetaObjectBase.removeOwningClassLoader,
        List.count_erase_self, hc]
    exact (AbstractMetaObjectBase.isOwnedBy_eq_false_iff _ _).mpr
      (List.count_eq_zero.mp hz)

/-- Witness for C1 at the freshly constructed factory, owner `7`, three
redundant adds. -/
theorem add_idempotent_single_remove_witness :
    AbstractMetaObjectBase.init.associated_class_loaders_.count 7 ≤ 1 ∧
    (((fun s => AbstractMetaObjectBase.addOwningClassLoader s 7)^[3]
        (AbstractMetaObjectBase.init.addOwningClassLoader 7)).isOwnedBy 7
      = true ∧
    (((fun s => AbstractMetaObjectBase.addOwningClassLoader s 7)^[3]
        (AbstractMetaObjectBase.init.addOwningClassLoader
          7)).removeOwningClassLoader 7).isOwnedBy 7 = false) :=
  ⟨by decide,
   add_idempotent_single_remove AbstractMetaObjectBase.init 7 (by decide) 3⟩

/-- Claim C2: `isOwnedByAnybody` is `true` iff the owner set is non-empty;
adding an owner to an empty owner set flips it `false` to `true`, and
removing the last remaining owner flips it `true` to `false`. -/
theorem isOwnedByAnybody_iff_nonempty_flips :
    (∀ m : AbstractMetaObjectBase,
        m.isOwnedByAnybody = true ↔ m.associated_class_loaders_ ≠ []) ∧
    (∀ (m : AbstractMetaObjectBase) (o : ClassLoaderPtr),
        m.associated_class_loaders_ = [] →
          m.isOwnedByAnybody = false ∧
          (m.addOwningClassLoader o).isOwnedByAnybody = true) ∧
    (∀ (m : AbstractMetaObjectBase) (o : ClassLoaderPtr),
        m.associated_class_loaders_ = [o] →
          m.isOwnedByAnybody = true ∧
          (m.removeOwningClassLoader o).isOwnedByAnybody = false) := by
  refine ⟨fun m => ?_, fun m o h => ⟨?_, ?_⟩, fun m o h => ⟨?_, ?_⟩⟩
  · simp [AbstractMetaObjectBase.isOwnedByAnybody]
  · simp [AbstractMetaObjectBase.isOwnedByAnybody, h]
  · simp [AbstractMetaObjectBase.isOwnedByAnybody,
      AbstractMetaObjectBase.addOwningClassLoader, h]
  · simp [AbstractMetaObjectBase.isOwnedByAnybody, h]
  · simp [AbstractMetaObjectBase.isOwnedByAnybody,
      AbstractMetaObjectBase.removeOwningClassLoader, h]

/-- Witness for C2: the flips at a concrete empty, then singleton, owner
set. -/
theorem isOwnedByAnybody_iff_nonempty_flips_witness :
    (AbstractMetaObjectBase.init.isOwnedByAnybody = false ∧
      (AbstractMetaObjectBase.init.addOwningClassLoader 4).isOwnedByAnybody
        = true) ∧
    ((AbstractMetaObjectBase.init.addOwningClassLoader 4).isOwnedByAnybody
        = true ∧
      ((AbstractMetaObjectBase.init.addOwningClassLoader
          4).removeOwningClassLoader 4).isOwnedByAnybody = false) :=
  ⟨isOwnedByAnybody_iff_nonempty_flips.2.1 AbstractMetaObjectBase.init 4 rfl,
   isOwnedByAnybody_iff_nonempty_flips.2.2
     (AbstractMetaObjectBase.init.addOwningClassLoader 4) 4 rfl⟩

/-- Claim C3: `getAssociatedLibraryPath` returns `"Unknown"` on a freshly
constructed factory, and after any non-empty sequence of
`setAssociatedLibraryPath` calls it returns exactly the argument of the
last call. -/
theorem libraryPath_unknown_then_last_set :
    AbstractMetaObjectBase.init.getAssociatedLibraryPath = "Unknown" ∧
    ∀ (m : AbstractMetaObjectBase) (ps : List String) (h : ps ≠ []),
      (ps.foldl AbstractMetaObjectBase.setAssociatedLibraryPath
          m).getAssociatedLibraryPath = ps.getLast h :=
  ⟨rfl, fun m ps h => foldl_set_getLast ps m h⟩

/-- Witness for C3: two successive sets end at the second path. -/
theorem libraryPath_unknown_then_last_set_witness :
    ((["a.so", "libshapes.so"] : List String).foldl
        AbstractMetaObjectBase.setAssociatedLibraryPath
        AbstractMetaObjectBase.init).getAssociatedLibraryPath
      = "libshapes.so" := by
  rw [libraryPath_unknown_then_last_set.2 AbstractMetaObjectBase.init
    ["a.so", "libshapes.so"] (by simp)]
  rfl

/-- Claim C4: on any well-formed heap, `create()` returns a non-null,
freshly allocated address and the factory unchanged; a second `create()`
returns another non-null fresh address distinct from the first, and each of
the two objects can be deleted while the other stays live. -/
theorem create_fresh_nonnull_distinct (fac : MetaObject) (h : Heap)
    (hpos : 0 < h.nextAddr) (hwf : h.wf) :
    (fac.create h).1 ≠ 0 ∧
    ((fac.create h).2.1.create (fac.create h).2.2).1 ≠ 0 ∧
    (fac.create h).1 ≠ ((fac.create h).2.1.create (fac.create h).2.2).1 ∧
    (fac.create h).1 ∉ h.live ∧
    ((fac.create h).2.1.create (fac.create h).2.2).1
      ∉ (fac.create h).2.2.live ∧
    ((((fac.create h).2.1.create (fac.create h).2.2).2.2.deleteObj
        (fac.create h).1).isLive
      ((fac.create h).2.1.create (fac.create h).2.2).1) = true ∧
    ((((fac.create h).2.1.create (fac.create h).2.2).2.2.deleteObj
        ((fac.create h).2.1.create (fac.create h).2.2).1).isLive
      (fac.create h).1) = true := by
  simp only [MetaObject.create, Heap.newObj, Heap.deleteObj, Heap.isLive]
  refine ⟨by omega, by omega, by omega, ?_, ?_, ?_, ?_⟩
  · intro hmem
    exact absurd (hwf _ hmem) (by omega)
  · intro hmem
    rcases List.mem_cons.mp hmem with h1 | h1
    · omega
    · exact absurd (hwf _ h1) (by omega)
  · simp
  · simp

/-- Witness for C4 at the empty heap and the factory named `circle`. -/
theorem create_fresh_nonnull_distinct_witness :
    0 < Heap.empty.nextAddr ∧ Heap.empty.wf ∧
    ((MetaObject.mkNamed "circle").create Heap.empty).1 ≠
      (((MetaObject.mkNamed "circle").create Heap.empty).2.1.create
        ((MetaObject.mkNamed "circle").create Heap.empty).2.2).1 :=
  ⟨by decide, by decide,
   (create_fresh_nonnull_distinct (MetaObject.mkNamed "circle") Heap.empty
     (by decide) (by decide)).2.2.1⟩

/-- Claim C5: for every owner `o` not in the owner set (never added or
already removed), `isOwnedBy o` is `false` and `removeOwningClassLoader o`
is a no-op leaving the whole state — hence every other owner's membership —
unchanged. -/
theorem remove_absent_noop (m : AbstractMetaObjectBase) (o : ClassLoaderPtr)
    (h : o ∉ m.associated_class_loaders_) :
    m.isOwnedBy o = false ∧ m.removeOwningClassLoader o = m ∧
    ∀ o' : ClassLoaderPtr,
      (m.removeOwningClassLoader o).isOwnedBy o' = m.isOwnedBy o' := by
  have hrm : m.removeOwningClassLoader o = m := by
    simp [AbstractMetaObjectBase.removeOwningClassLoader,
      List.erase_of_not_mem h]
  exact ⟨(AbstractMetaObjectBase.isOwnedBy_eq_false_iff m o).mpr h, hrm,
    fun o' => by rw [hrm]⟩

/-- Witness for C5: owner `5` was never added to a fresh factory. -/
theorem remove_absent_noop_witness :
    AbstractMetaObjectBase.init.isOwnedBy 5 = false ∧
    AbstractMetaObjectBase.init.removeOwningClassLoader 5
      = AbstractMetaObjectBase.init :=
  ⟨(remove_absent_noop AbstractMetaObjectBase.init 5 (by decide)).1,
   (remove_absent_noop AbstractMetaObjectBase.init 5 (by decide)).2.1⟩

/-- Claim C6: `name()` returns exactly the string supplied at construction,
and its value is unchanged by any sequence of operations on the factory
(`create`, add/remove owner, set library path). -/
theorem name_fixed_across_ops (nm : String) (ops : List FactoryOp)
    (h : Heap) :
    (MetaObject.mkNamed nm).name = nm ∧
    (runOps (MetaObject.mkNamed nm, h) ops).1.name = nm :=
  ⟨rfl, runOps_name ops (MetaObject.mkNamed nm, h)⟩

/-- Claim C9: immediately after construction the owner set is empty:
`isOwnedByAnybody` is `false` and `isOwnedBy o` is `false` for every owner
`o`. -/
theorem init_owner_set_empty :
    AbstractMetaObjectBase.init.associated_class_loaders_ = [] ∧
    AbstractMetaObjectBase.init.isOwnedByAnybody = false ∧
    ∀ o : ClassLoaderPtr, AbstractMetaObjectBase.init.isOwnedBy o = false :=
  ⟨rfl, rfl, fun _ => rfl⟩

/-- Claim C10: the two pieces of Factory Base state are independent —
add/remove owner leave the library path unchanged, setting the library path
leaves the owner set unchanged, and `create` leaves the entire factory
state unchanged. -/
theorem state_independence :
    (∀ (m : AbstractMetaObjectBase) (o : ClassLoaderPtr),
        (m.addOwningClassLoader o).getAssociatedLibraryPath
          = m.getAssociatedLibraryPath) ∧
    (∀ (m : AbstractMetaObjectBase) (o : ClassLoaderPtr),
        (m.removeOwningClassLoader o).getAssociatedLibraryPath
          = m.getAssociatedLibraryPath) ∧
    (∀ (m : AbstractMetaObjectBase) (p : String),
        (m.setAssociatedLibraryPath p).associated_class_loaders_
          = m.associated_class_loaders_) ∧
    (∀ (fac : MetaObject) (h : Heap), (fac.create h).2.1 = fac) := by
  refine ⟨fun m o => ?_, fun m o => rfl, fun m p => rfl, fun fac h => rfl⟩
  unfold AbstractMetaObjectBase.addOwningClassLoader
  split <;> rfl

end ClassLoader
